import Mathlib

/-!
Formal model of the lithium-tracker price-normalization engine.

The repository `api/prices.js` contains two revisions of the engine,
concatenated in the source file:

* revision 1 (lines 82-141, also `unnamed/part_000` lines 94-142):
  `buildResponse` gives the history-derived delta precedence over the
  scraped change fields, performs no staleness check on the history
  date, and dereferences `history.carbonate` without a null guard;

* revision 2 (lines 211-282): the staleness-aware `buildResponse`
  ignores a same-day history, and gives the scraped `changeCNY`
  (carbonate) / `changeUSD` (spodumene) fields precedence, testing
  them against `undefined` only.

JavaScript numbers are modelled as exact rationals; `undefined`,
`null` and `NaN` are explicit constructors of `JsNum`, so the falsy
checks and the `NaN`-propagation of JS arithmetic are reproduced
faithfully.  Display-only string fields (`id`, `name`, `grade`,
`unit`, `spotOnly`) are carried through the engine unchanged by an
object spread and play no role in any computation; they are omitted
from the record types.  The `lastUpdated` wall-clock timestamp is
likewise omitted; the current date consumed by the staleness check of
revision 2 (`getTodayDate`) is passed as an explicit `today` argument.
-/

/-- Model of a JavaScript numeric-or-missing value: a finite number
(exact rational), `null`, `undefined`, or `NaN`. -/
inductive JsNum where
  | undef : JsNum
  | null : JsNum
  | nan : JsNum
  | num : ℚ → JsNum
deriving DecidableEq

/-- JS `ToNumber` coercion as used by arithmetic operators:
`undefined` coerces to `NaN`, `null` coerces to `0`. -/
def JsNum.toNumber : JsNum → JsNum
  | JsNum.undef => JsNum.nan
  | JsNum.null => JsNum.num 0
  | JsNum.nan => JsNum.nan
  | JsNum.num q => JsNum.num q

/-- JS truthiness of a numeric value: truthy iff a nonzero finite
number (`0`, `NaN`, `null`, `undefined` are all falsy). -/
def JsNum.truthy : JsNum → Bool
  | JsNum.num q => decide (q ≠ 0)
  | _ => false

/-- JS binary subtraction `a - b` (NaN-propagating). -/
def jsSub (a b : JsNum) : JsNum :=
  match a.toNumber, b.toNumber with
  | JsNum.num x, JsNum.num y => JsNum.num (x - y)
  | _, _ => JsNum.nan

/-- JS binary multiplication `a * b` (NaN-propagating). -/
def jsMul (a b : JsNum) : JsNum :=
  match a.toNumber, b.toNumber with
  | JsNum.num x, JsNum.num y => JsNum.num (x * y)
  | _, _ => JsNum.nan

/-- JS binary division `a / b` (NaN-propagating).  A zero denominator
yields `Infinity` in JS; every division performed by the engine is
guarded by a nonzero denominator, so that case is unreachable and is
mapped to `nan` here. -/
def jsDiv (a b : JsNum) : JsNum :=
  match a.toNumber, b.toNumber with
  | JsNum.num x, JsNum.num y => if y = 0 then JsNum.nan else JsNum.num (x / y)
  | _, _ => JsNum.nan

/-- JS `Math.round`: for a finite argument `x` it returns
`⌊x + 1/2⌋`, i.e. rounds halves toward positive infinity;
`Math.round(NaN)` is `NaN`. -/
def jsMathRound (a : JsNum) : JsNum :=
  match a.toNumber with
  | JsNum.num x => JsNum.num ((⌊x + 1/2⌋ : ℤ) : ℚ)
  | _ => JsNum.nan

/-- The two-decimal rounding expression the engine applies at every
output site: `Math.round(v * 100) / 100`. -/
def round2 (v : JsNum) : JsNum :=
  jsDiv (jsMathRound (jsMul v (JsNum.num 100))) (JsNum.num 100)

/-- The four-decimal rounding applied to the conversion rate:
`Math.round(v * 10000) / 10000`. -/
def round4 (v : JsNum) : JsNum :=
  jsDiv (jsMathRound (jsMul v (JsNum.num 10000))) (JsNum.num 10000)

/-- The guarded output pattern `v !== null ? Math.round(v*100)/100 : null`. -/
def nullGuardRound2 (v : JsNum) : JsNum :=
  if v = JsNum.null then JsNum.null else round2 v

/-- An instrument record of the current snapshot (carbonate or
spodumene): prices and the optional scraped change fields. -/
structure Instrument where
  price : JsNum
  priceCNY : JsNum
  changeCNY : JsNum
  changeUSD : JsNum
  changePercent : JsNum
deriving DecidableEq

/-- A futures contract of the current snapshot; `priceCNY` is a
required field of the data model. -/
structure FutureContract where
  contract : String
  month : String
  priceCNY : ℚ
deriving DecidableEq

/-- The current-prices snapshot consumed by `buildResponse`. -/
structure Snapshot where
  carbonate : Instrument
  spodumene : Instrument
  futures : List FutureContract
deriving DecidableEq

/-- An entry of the history's futures list. -/
structure HistoryFuture where
  contract : String
  priceCNY : ℚ
deriving DecidableEq

/-- The prior-day history snapshot.  The `carbonate` and `spodumene`
fields hold the value of `history.carbonate?.price` resp.
`history.spodumene?.price` (`undef` when the sub-record or its price
is missing). -/
structure HistorySnapshot where
  date : String
  carbonate : JsNum
  spodumene : JsNum
  futures : List HistoryFuture
deriving DecidableEq

/-- A derived instrument of the response: the object spread copies the
input fields, then `change` and `changePercent` are written (the
scraped `changePercent` of the input is overwritten). -/
structure DerivedInstrument where
  price : JsNum
  priceCNY : JsNum
  changeCNY : JsNum
  changeUSD : JsNum
  change : JsNum
  changePercent : JsNum
deriving DecidableEq

/-- A derived future of the response. -/
structure DerivedFuture where
  contract : String
  month : String
  priceCNY : ℚ
  price : JsNum
  change : JsNum
deriving DecidableEq

/-- The derived response record (display-ready prices). -/
structure DerivedPrices where
  carbonate : DerivedInstrument
  spodumene : DerivedInstrument
  futures : List DerivedFuture
  conversionRate : JsNum
  historyDate : Option String
deriving DecidableEq

/-- `calculateConversionRate` (identical in both revisions,
api/prices.js lines 72-75 and 193-196):
`if (!carbonate.price || !carbonate.priceCNY) return 6.98;
 return carbonate.priceCNY / carbonate.price;`. -/
def calculateConversionRate (carbonate : Instrument) : JsNum :=
  if !carbonate.price.truthy || !carbonate.priceCNY.truthy then JsNum.num (698/100)
  else jsDiv carbonate.priceCNY carbonate.price

/-- `calculateChange` (identical in both revisions, api/prices.js
lines 77-80 and 198-201):
`if (!previous || previous === 0) return null;
 return ((current - previous) / previous) * 100;`. -/
def calculateChange (current previous : JsNum) : JsNum :=
  if previous.truthy then jsMul (jsDiv (jsSub current previous) previous) (JsNum.num 100)
  else JsNum.null

/-- `calculatePercentFromChange` (revision 2 only, api/prices.js
lines 204-209):
`if (!absoluteChange || absoluteChange === 0) return 0;
 const previousPrice = currentPrice - absoluteChange;
 if (previousPrice === 0) return 0;
 return (absoluteChange / previousPrice) * 100;`
(the early-return guard is written here as the else-branch). -/
def calculatePercentFromChange (currentPrice absoluteChange : JsNum) : JsNum :=
  if absoluteChange.truthy then
    if jsSub currentPrice absoluteChange = JsNum.num 0 then JsNum.num 0
    else jsMul (jsDiv absoluteChange (jsSub currentPrice absoluteChange)) (JsNum.num 100)
  else JsNum.num 0

/-- Lookup in `new Map((history?.futures || []).map(f => [f.contract,
f.priceCNY]))`: the `Map` constructor is last-write-wins on duplicate
contract codes, and `get` returns `undefined` on a missing key. -/
def histFuturesGet (fs : List HistoryFuture) (contract : String) : JsNum :=
  match fs.reverse.find? (fun f => f.contract == contract) with
  | none => JsNum.undef
  | some f => JsNum.num f.priceCNY

/-- The list `history?.futures || []`. -/
def historyFuturesList : Option HistorySnapshot → List HistoryFuture
  | none => []
  | some h => h.futures

namespace Rev2

/-!
Revision 2 of the engine (api/prices.js lines 211-282): the
staleness-aware `buildResponse`.  The local variables of the source
(`hasValidHistory`, `carbonateChange`, `carbonateChangePercent`,
`spodumeneChange`, `spodumeneChangePercent` and the body of the
futures `map`) are factored into named definitions so that theorems
can speak about the pre-rounding values.
-/

/-- `const hasValidHistory = history && history.date !== today;`
(the value is used only as a boolean condition, so its truthiness is
kept). -/
def hasValidHistory (history : Option HistorySnapshot) (today : String) : Bool :=
  match history with
  | none => false
  | some h => h.date != today

/-- The value of `history.carbonate?.price`; only evaluated behind the
short-circuiting `hasValidHistory &&`, so the `none` case is never
consulted by the engine. -/
def histCarbPrice : Option HistorySnapshot → JsNum
  | none => JsNum.undef
  | some h => h.carbonate

/-- The value of `history.spodumene?.price`. -/
def histSpodPrice : Option HistorySnapshot → JsNum
  | none => JsNum.undef
  | some h => h.spodumene

/-- The local `carbonateChange` before rounding (api/prices.js lines
218-230): `null`, then set by
`if (prices.carbonate.changeCNY !== undefined)
   carbonateChange = prices.carbonate.changeCNY / conversionRate;
 else if (hasValidHistory && history.carbonate?.price)
   carbonateChange = prices.carbonate.price - history.carbonate.price;`
(the `undefined` test is written here as the outer else-branch). -/
def carbonateChangeRaw (prices : Snapshot) (history : Option HistorySnapshot)
    (today : String) : JsNum :=
  if prices.carbonate.changeCNY = JsNum.undef then
    if hasValidHistory history today && (histCarbPrice history).truthy then
      jsSub prices.carbonate.price (histCarbPrice history)
    else JsNum.null
  else jsDiv prices.carbonate.changeCNY (calculateConversionRate prices.carbonate)

/-- The local `carbonateChangePercent` before rounding, set in the
same branch structure:
`calculatePercentFromChange(prices.carbonate.priceCNY, prices.carbonate.changeCNY)`
in the scraped branch, `calculateChange(prices.carbonate.price,
history.carbonate.price)` in the history branch. -/
def carbonateChangePercentRaw (prices : Snapshot) (history : Option HistorySnapshot)
    (today : String) : JsNum :=
  if prices.carbonate.changeCNY = JsNum.undef then
    if hasValidHistory history today && (histCarbPrice history).truthy then
      calculateChange prices.carbonate.price (histCarbPrice history)
    else JsNum.null
  else calculatePercentFromChange prices.carbonate.priceCNY prices.carbonate.changeCNY

/-- The local `spodumeneChange` before rounding (api/prices.js lines
233-242): the scraped branch fires on
`prices.spodumene.changeUSD !== undefined` and uses the scraped value
directly. -/
def spodumeneChangeRaw (prices : Snapshot) (history : Option HistorySnapshot)
    (today : String) : JsNum :=
  if prices.spodumene.changeUSD = JsNum.undef then
    if hasValidHistory history today && (histSpodPrice history).truthy then
      jsSub prices.spodumene.price (histSpodPrice history)
    else JsNum.null
  else prices.spodumene.changeUSD

/-- The local `spodumeneChangePercent` before rounding. -/
def spodumeneChangePercentRaw (prices : Snapshot) (history : Option HistorySnapshot)
    (today : String) : JsNum :=
  if prices.spodumene.changeUSD = JsNum.undef then
    if hasValidHistory history today && (histSpodPrice history).truthy then
      calculateChange prices.spodumene.price (histSpodPrice history)
    else JsNum.null
  else calculatePercentFromChange prices.spodumene.price prices.spodumene.changeUSD

/-- The local `changePercent` of the futures `map` body of revision 2
(api/prices.js lines 253-255):
`const changePercent = hasValidHistory && historyPriceCNY
   ? calculateChange(f.priceCNY, historyPriceCNY) : null;`
where `historyPriceCNY = historyFuturesMap.get(f.contract)`. -/
def futureChangeRaw (hasValid : Bool) (historyFutures : List HistoryFuture)
    (f : FutureContract) : JsNum :=
  if hasValid && (histFuturesGet historyFutures f.contract).truthy then
    calculateChange (JsNum.num f.priceCNY) (histFuturesGet historyFutures f.contract)
  else JsNum.null

/-- The derived-future record returned by the futures `map` of
revision 2 (api/prices.js lines 250-264):
`const priceUSD = Math.round(f.priceCNY / conversionRate);
 ...
 return { contract, month, priceCNY, price: priceUSD,
   change: changePercent !== null ? Math.round(changePercent*100)/100 : null };`. -/
def convertFuture (conversionRate : JsNum) (hasValid : Bool)
    (historyFutures : List HistoryFuture) (f : FutureContract) : DerivedFuture :=
  { contract := f.contract, month := f.month, priceCNY := f.priceCNY,
    price := jsMathRound (jsDiv (JsNum.num f.priceCNY) conversionRate),
    change := nullGuardRound2 (futureChangeRaw hasValid historyFutures f) }

/-- Revision 2 `buildResponse` (api/prices.js lines 211-282). -/
def buildResponse (prices : Snapshot) (history : Option HistorySnapshot)
    (today : String) : DerivedPrices :=
  let conversionRate := calculateConversionRate prices.carbonate
  { carbonate :=
      { price := prices.carbonate.price
        priceCNY := prices.carbonate.priceCNY
        changeCNY := prices.carbonate.changeCNY
        changeUSD := prices.carbonate.changeUSD
        change := nullGuardRound2 (carbonateChangeRaw prices history today)
        changePercent := nullGuardRound2 (carbonateChangePercentRaw prices history today) }
    spodumene :=
      { price := prices.spodumene.price
        priceCNY := prices.spodumene.priceCNY
        changeCNY := prices.spodumene.changeCNY
        changeUSD := prices.spodumene.changeUSD
        change := nullGuardRound2 (spodumeneChangeRaw prices history today)
        changePercent := nullGuardRound2 (spodumeneChangePercentRaw prices history today) }
    futures := prices.futures.map
      (convertFuture conversionRate (hasValidHistory history today) (historyFuturesList history))
    conversionRate := round4 conversionRate
    historyDate :=
      match history with
      | none => none
      | some h => if h.date.isEmpty then none else some h.date }

end Rev2

namespace Rev1

/-!
Revision 1 of the engine (api/prices.js lines 82-141; the same
function appears in `unnamed/part_000` lines 94-142).  It computes
the instrument deltas "strictly against HISTORY": the history value
takes precedence and the scraped fields are used only as the
fallback.  There is no staleness check.  Line 86 evaluates
`history.carbonate?.price` without a null guard on `history` itself,
so a null history throws a `TypeError`; the function is therefore
modelled as returning an `Option`, with `none` for the thrown
exception.  The instrument-level rounding sites have no null guard:
`Math.round(carbChangeVal * 100) / 100` is applied even when
`carbChangeVal` is `null` (giving `0`) or `undefined` (giving `NaN`).
-/

/-- The body of the futures `map` of revision 1 (api/prices.js lines
98-112); identical to revision 2 except that the change condition is
`historyPriceCNY ? ... : null` with no staleness conjunct. -/
def convertFuture (conversionRate : JsNum)
    (historyFutures : List HistoryFuture) (f : FutureContract) : DerivedFuture :=
  let priceUSD := jsMathRound (jsDiv (JsNum.num f.priceCNY) conversionRate)
  let historyPriceCNY := histFuturesGet historyFutures f.contract
  let changePercent :=
    if historyPriceCNY.truthy then
      calculateChange (JsNum.num f.priceCNY) historyPriceCNY
    else JsNum.null
  { contract := f.contract, month := f.month, priceCNY := f.priceCNY,
    price := priceUSD, change := nullGuardRound2 changePercent }

/-- Revision 1 `buildResponse` (api/prices.js lines 82-130). -/
def buildResponse (prices : Snapshot) (history : Option HistorySnapshot) :
    Option DerivedPrices :=
  match history with
  | none => none
  | some h =>
    let conversionRate := calculateConversionRate prices.carbonate
    let carbChangeVal :=
      if h.carbonate.truthy then jsSub prices.carbonate.price h.carbonate
      else prices.carbonate.changeUSD
    let carbChangePct :=
      if h.carbonate.truthy then calculateChange prices.carbonate.price h.carbonate
      else prices.carbonate.changePercent
    let spodChangeVal :=
      if h.spodumene.truthy then jsSub prices.spodumene.price h.spodumene
      else prices.spodumene.changeUSD
    let spodChangePct :=
      if h.spodumene.truthy then calculateChange prices.spodumene.price h.spodumene
      else prices.spodumene.changePercent
    some
      { carbonate :=
          { price := prices.carbonate.price
            priceCNY := prices.carbonate.priceCNY
            changeCNY := prices.carbonate.changeCNY
            changeUSD := prices.carbonate.changeUSD
            change := round2 carbChangeVal
            changePercent := round2 carbChangePct }
        spodumene :=
          { price := prices.spodumene.price
            priceCNY := prices.spodumene.priceCNY
            changeCNY := prices.spodumene.changeCNY
            changeUSD := prices.spodumene.changeUSD
            change := round2 spodChangeVal
            changePercent := round2 spodChangePct }
        futures := prices.futures.map (convertFuture conversionRate h.futures)
        conversionRate := round4 conversionRate
        historyDate := if h.date.isEmpty then none else some h.date }

end Rev1

/-!
Contract-expiry filter from `src/data/lithiumData.js`.  The reference
date obtained in the source from `new Date()` (`now.getFullYear()`
and `now.getMonth() + 1`) is passed as explicit `currentYear` /
`currentMonth` arguments.
-/

/-- JS `s.substring(a, b)`: the characters with indices in `[a, b)`,
clamped to the string (modelled for `a ≤ b`). -/
def jsSubstring (s : String) (a b : Nat) : String :=
  String.mk ((s.toList.drop a).take (b - a))

/-- JS `parseInt` on a base-10 string: parses the longest leading run
of digits; `none` models the `NaN` result when there is none.
(Leading whitespace and sign handling are not needed for the contract
codes fed to it.) -/
def parseIntNat (s : String) : Option Nat :=
  let ds := s.toList.takeWhile Char.isDigit
  if ds.isEmpty then none
  else some (ds.foldl (fun acc c => acc * 10 + (c.toNat - 48)) 0)

/-- Numeric value of a digit character. -/
def digitVal (c : Char) : Nat := c.toNat - 48

/-- `isContractExpired` (src/data/lithiumData.js lines 68-80):
`const year = 2000 + parseInt(contractCode.substring(2, 4));
 const month = parseInt(contractCode.substring(4, 6));
 if (year < currentYear) return true;
 if (year === currentYear && month < currentMonth) return true;
 return false;`
A `NaN` year or month makes every comparison involving it false. -/
def isContractExpired (contractCode : String) (currentYear currentMonth : Nat) : Bool :=
  match parseIntNat (jsSubstring contractCode 2 4) with
  | none => false
  | some y2 =>
    if 2000 + y2 < currentYear then true
    else if 2000 + y2 = currentYear then
      match parseIntNat (jsSubstring contractCode 4 6) with
      | none => false
      | some m => decide (m < currentMonth)
    else false

/-- `getActiveContracts` (src/data/lithiumData.js lines 85-87):
`futures.filter(c => !isContractExpired(c.contract))`. -/
def getActiveContracts (futures : List FutureContract)
    (currentYear currentMonth : Nat) : List FutureContract :=
  futures.filter (fun c => !(isContractExpired c.contract currentYear currentMonth))

/-- Modelled from the spec: rounding to two decimal places with
halves away from zero (one of the two rules the spec allows). -/
def roundHalfAwayTwo (x : ℚ) : ℚ :=
  if 0 ≤ x then ((⌊x * 100 + 1/2⌋ : ℤ) : ℚ) / 100
  else -(((⌊-(x * 100) + 1/2⌋ : ℤ) : ℚ) / 100)

/-- Modelled from the spec: rounding to two decimal places with
halves to even (the other rule the spec allows). -/
def roundHalfEvenTwo (x : ℚ) : ℚ :=
  (if x * 100 - (⌊x * 100⌋ : ℤ) < 1/2 then ((⌊x * 100⌋ : ℤ) : ℚ)
   else if x * 100 - (⌊x * 100⌋ : ℤ) > 1/2 then ((⌊x * 100⌋ + 1 : ℤ) : ℚ)
   else if Even (⌊x * 100⌋ : ℤ) then ((⌊x * 100⌋ : ℤ) : ℚ)
   else ((⌊x * 100⌋ + 1 : ℤ) : ℚ)) / 100

/-!
Helper lemmas about the primitives.
-/

/-- JS division never yields `null`. -/
theorem jsDiv_ne_null (a b : JsNum) : jsDiv a b ≠ JsNum.null := by
  cases a <;> cases b <;> simp [jsDiv, JsNum.toNumber] <;> split <;> simp

/-- JS subtraction never yields `null`. -/
theorem jsSub_ne_null (a b : JsNum) : jsSub a b ≠ JsNum.null := by
  cases a <;> cases b <;> simp [jsSub, JsNum.toNumber]

/-- Two-decimal rounding never yields `null`. -/
theorem round2_ne_null (v : JsNum) : round2 v ≠ JsNum.null :=
  jsDiv_ne_null _ _

/-- `calculatePercentFromChange` never yields `null`. -/
theorem calculatePercentFromChange_ne_null (p c : JsNum) :
    calculatePercentFromChange p c ≠ JsNum.null := by
  unfold calculatePercentFromChange
  split
  · split
    · simp
    · cases p <;> cases c <;> simp [jsMul, jsDiv, jsSub, JsNum.toNumber] <;> split <;> simp
  · simp

/-- `calculateChange` with a truthy baseline never yields `null`. -/
theorem calculateChange_ne_null (c p : JsNum) (hp : p.truthy = true) :
    calculateChange c p ≠ JsNum.null := by
  unfold calculateChange
  rw [hp]
  simp only [if_true]
  cases c <;> cases p <;> simp [jsMul, jsDiv, jsSub, JsNum.toNumber] <;> split <;> simp

/-- Truthiness characterization: truthy iff a nonzero number. -/
theorem truthy_iff (v : JsNum) : v.truthy = true ↔ ∃ q : ℚ, v = JsNum.num q ∧ q ≠ 0 := by
  cases v <;> simp [JsNum.truthy]

/-- The conversion rate is always a nonzero number. -/
theorem calculateConversionRate_num (c : Instrument) :
    ∃ r : ℚ, calculateConversionRate c = JsNum.num r ∧ r ≠ 0 := by
  unfold calculateConversionRate
  split
  · exact ⟨698/100, rfl, by norm_num⟩
  · rename_i h
    simp only [Bool.or_eq_true, Bool.not_eq_true'] at h
    push_neg at h
    obtain ⟨hp, hq⟩ := h
    rw [Bool.ne_false_iff] at hp hq
    obtain ⟨p, hpe, hpne⟩ := (truthy_iff _).mp hp
    obtain ⟨q, hqe, hqne⟩ := (truthy_iff _).mp hq
    refine ⟨q / p, ?_, div_ne_zero hqne hpne⟩
    rw [hpe, hqe]
    simp [jsDiv, JsNum.toNumber, hpne]

/-- Rounding a number to two decimals: the explicit half-up formula. -/
theorem round2_num (q : ℚ) :
    round2 (JsNum.num q) = JsNum.num (((⌊q * 100 + 1/2⌋ : ℤ) : ℚ) / 100) := by
  simp [round2, jsDiv, jsMul, jsMathRound, JsNum.toNumber]

/-!
Claim theorems.
-/

/-- C5: for every carbonate instrument, `calculateConversionRate`
returns `priceCNY / price` when both `price` and `priceCNY` are
present and nonzero, and returns the fixed fallback constant `6.98`
when either is zero or absent, without raising any error (it is a
total function); in particular it returns `6.98` on
`{price: 0, priceCNY: 100}`. -/
theorem conversionRate_ratio_and_fallback :
    ∀ (carb : Instrument) (p q : ℚ),
      (carb.price = JsNum.num p → p ≠ 0 → carb.priceCNY = JsNum.num q → q ≠ 0 →
        calculateConversionRate carb = JsNum.num (q / p)) ∧
      ((carb.price = JsNum.num 0 ∨ carb.price = JsNum.undef ∨
          carb.priceCNY = JsNum.num 0 ∨ carb.priceCNY = JsNum.undef) →
        calculateConversionRate carb = JsNum.num (698/100)) ∧
      calculateConversionRate
        { price := JsNum.num 0, priceCNY := JsNum.num 100, changeCNY := JsNum.undef,
          changeUSD := JsNum.undef, changePercent := JsNum.undef } =
        JsNum.num (698/100) := by
  intro carb p q
  refine ⟨fun hp hpne hq hqne => ?_, fun hfall => ?_,
    by simp [calculateConversionRate, JsNum.truthy]⟩
  · rw [calculateConversionRate, if_neg (by rw [hp, hq]; simp [JsNum.truthy, hpne, hqne]),
      hp, hq]
    simp [jsDiv, JsNum.toNumber, hpne]
  · rw [calculateConversionRate, if_pos ?_]
    rcases hfall with h | h | h | h <;> rw [h] <;> simp [JsNum.truthy]

/-- Witness for C5 at the spot prices of revision 2's literal
snapshot. -/
theorem conversionRate_ratio_and_fallback_witness :
    calculateConversionRate
      { price := JsNum.num 23566, priceCNY := JsNum.num 164500, changeCNY := JsNum.undef,
        changeUSD := JsNum.undef, changePercent := JsNum.undef } =
      JsNum.num (164500 / 23566) :=
  (conversionRate_ratio_and_fallback _ 23566 164500).1 rfl (by norm_num) rfl (by norm_num)

/-- C7: for every current and previous value with previous a nonzero
number, `calculateChange` returns `((current - previous) / previous) * 100`
and this result satisfies the exact round-trip equation
`previous * (1 + result / 100) = current` over the rationals; for a
zero, `null` or `undefined` previous the result is `null`. -/
theorem percentChange_roundtrip :
    ∀ (c p : ℚ) (x : JsNum),
      (p ≠ 0 →
        calculateChange (JsNum.num c) (JsNum.num p) = JsNum.num ((c - p) / p * 100) ∧
        p * (1 + (c - p) / p * 100 / 100) = c) ∧
      calculateChange x (JsNum.num 0) = JsNum.null ∧
      calculateChange x JsNum.null = JsNum.null ∧
      calculateChange x JsNum.undef = JsNum.null := by
  intro c p x
  refine ⟨fun hp => ⟨?_, ?_⟩, ?_, ?_, ?_⟩
  · simp [calculateChange, JsNum.truthy, hp, jsMul, jsDiv, jsSub, JsNum.toNumber]
  · field_simp
    ring
  · simp [calculateChange, JsNum.truthy]
  · simp [calculateChange, JsNum.truthy]
  · simp [calculateChange, JsNum.truthy]

/-- Witness for C7 at current 110, previous 100. -/
theorem percentChange_roundtrip_witness :
    calculateChange (JsNum.num 110) (JsNum.num 100) =
      JsNum.num ((110 - 100) / 100 * 100) ∧
    (100 : ℚ) * (1 + (110 - 100) / 100 * 100 / 100) = 110 :=
  (percentChange_roundtrip 110 100 (JsNum.num 0)).1 (by norm_num)

/-- C10: in the staleness-aware engine revision, a scraped change
field that is defined but equal to 0 is treated as valid data rather
than as absent: with `carbonate.changeCNY = 0` the output carbonate
change and changePercent are both 0 (not `null`), and with
`spodumene.changeUSD = 0` the output spodumene change and
changePercent are both 0 (not `null`), because the precedence test
checks only for `undefined` and `calculatePercentFromChange` returns
0 on a falsy absolute change. -/
theorem zero_scraped_change_valid :
    ∀ (s : Snapshot) (h : Option HistorySnapshot) (today : String),
      (s.carbonate.changeCNY = JsNum.num 0 →
        (Rev2.buildResponse s h today).carbonate.change = JsNum.num 0 ∧
        (Rev2.buildResponse s h today).carbonate.changePercent = JsNum.num 0) ∧
      (s.spodumene.changeUSD = JsNum.num 0 →
        (Rev2.buildResponse s h today).spodumene.change = JsNum.num 0 ∧
        (Rev2.buildResponse s h today).spodumene.changePercent = JsNum.num 0) := by
  intro s h today
  obtain ⟨r, hr, hrne⟩ := calculateConversionRate_num s.carbonate
  constructor
  · intro hc
    have hraw : Rev2.carbonateChangeRaw s h today = JsNum.num 0 := by
      rw [Rev2.carbonateChangeRaw, if_neg (by rw [hc]; simp), hc, hr]
      simp [jsDiv, JsNum.toNumber, hrne]
    have hpct : Rev2.carbonateChangePercentRaw s h today = JsNum.num 0 := by
      rw [Rev2.carbonateChangePercentRaw, if_neg (by rw [hc]; simp), hc]
      simp [calculatePercentFromChange, JsNum.truthy]
    constructor
    · show nullGuardRound2 (Rev2.carbonateChangeRaw s h today) = JsNum.num 0
      rw [hraw]
      simp [nullGuardRound2, round2_num]
      norm_num
    · show nullGuardRound2 (Rev2.carbonateChangePercentRaw s h today) = JsNum.num 0
      rw [hpct]
      simp [nullGuardRound2, round2_num]
      norm_num
  · intro hc
    have hraw : Rev2.spodumeneChangeRaw s h today = JsNum.num 0 := by
      rw [Rev2.spodumeneChangeRaw, if_neg (by rw [hc]; simp), hc]
    have hpct : Rev2.spodumeneChangePercentRaw s h today = JsNum.num 0 := by
      rw [Rev2.spodumeneChangePercentRaw, if_neg (by rw [hc]; simp), hc]
      simp [calculatePercentFromChange, JsNum.truthy]
    constructor
    · show nullGuardRound2 (Rev2.spodumeneChangeRaw s h today) = JsNum.num 0
      rw [hraw]
      simp [nullGuardRound2, round2_num]
      norm_num
    · show nullGuardRound2 (Rev2.spodumeneChangePercentRaw s h today) = JsNum.num 0
      rw [hpct]
      simp [nullGuardRound2, round2_num]
      norm_num

/-- The date string used by the concrete examples below. -/
def exToday : String := "2026-01-22"

/-- A concrete snapshot mirroring revision 2's literal
`CURRENT_PRICES` (carbonate `changeCNY: 0`, spodumene
`changeUSD: 0`). -/
def zeroChangeSnap : Snapshot :=
  { carbonate :=
      { price := JsNum.num 22704, priceCNY := JsNum.num 158500,
        changeCNY := JsNum.num 0, changeUSD := JsNum.undef,
        changePercent := JsNum.undef }
    spodumene :=
      { price := JsNum.num 2035, priceCNY := JsNum.undef,
        changeCNY := JsNum.undef, changeUSD := JsNum.num 0,
        changePercent := JsNum.undef }
    futures := [] }

/-- Witness for C10 at revision 2's literal snapshot. -/
theorem zero_scraped_change_valid_witness :
    (Rev2.buildResponse zeroChangeSnap none exToday).carbonate.change = JsNum.num 0 ∧
    (Rev2.buildResponse zeroChangeSnap none exToday).carbonate.changePercent = JsNum.num 0 ∧
    (Rev2.buildResponse zeroChangeSnap none exToday).spodumene.change = JsNum.num 0 ∧
    (Rev2.buildResponse zeroChangeSnap none exToday).spodumene.changePercent = JsNum.num 0 := by
  have h := zero_scraped_change_valid zeroChangeSnap none exToday
  exact ⟨(h.1 rfl).1, (h.1 rfl).2, (h.2 rfl).1, (h.2 rfl).2⟩

/-- Parsing a two-digit string: `parseIntNat` returns the decimal
value of the two digit characters. -/
theorem parse_two_digits (a b : Char) (ha : a.isDigit = true) (hb : b.isDigit = true) :
    parseIntNat (String.mk [a, b]) = some (10 * digitVal a + digitVal b) := by
  simp [parseIntNat, List.takeWhile, ha, hb, String.toList, digitVal]
  ring

/-- The contract code of the February 2026 GFEX future. -/
def cLC2602 : String := "LC2602"

/-- The contract code of the January 2027 GFEX future. -/
def cLC2701 : String := "LC2701"

/-- C9: for every contract code of the form `LC` + two year digits +
two month digits and every reference date, `isContractExpired` parses
the year as 2000 plus the digits at positions 2-3 and the month as
the digits at positions 4-5, and returns true iff the year precedes
the reference year, or the years agree and the month precedes the
reference month (a contract expiring in the current month is not
expired); in particular "LC2602" is expired against 2026-03, not
expired against 2026-02, and "LC2701" is not expired against
2026-02.  `getActiveContracts` keeps exactly the non-expired
contracts in their original relative order. -/
theorem contract_expiry_filter :
    ∀ (a b c d : Char) (Y M : Nat),
      a.isDigit = true → b.isDigit = true → c.isDigit = true → d.isDigit = true →
      (isContractExpired (String.mk ['L', 'C', a, b, c, d]) Y M = true ↔
        2000 + (10 * digitVal a + digitVal b) < Y ∨
          (2000 + (10 * digitVal a + digitVal b) = Y ∧ 10 * digitVal c + digitVal d < M)) ∧
      isContractExpired cLC2602 2026 3 = true ∧
      isContractExpired cLC2602 2026 2 = false ∧
      isContractExpired cLC2701 2026 2 = false ∧
      ∀ (fs : List FutureContract),
        (getActiveContracts fs Y M).Sublist fs ∧
        ∀ f : FutureContract,
          f ∈ getActiveContracts fs Y M ↔
            f ∈ fs ∧ isContractExpired f.contract Y M = false := by
  intro a b c d Y M ha hb hc hd
  refine ⟨?_, by decide, by decide, by decide, fun fs => ⟨List.filter_sublist fs, fun f => ?_⟩⟩
  · have h1 : jsSubstring (String.mk ['L', 'C', a, b, c, d]) 2 4 = String.mk [a, b] := by
      simp [jsSubstring, String.toList]
    have h2 : jsSubstring (String.mk ['L', 'C', a, b, c, d]) 4 6 = String.mk [c, d] := by
      simp [jsSubstring, String.toList]
    rw [isContractExpired, h1, h2, parse_two_digits a b ha hb, parse_two_digits c d hc hd]
    by_cases hy : 2000 + (10 * digitVal a + digitVal b) < Y
    · simp [hy]
    · by_cases he : 2000 + (10 * digitVal a + digitVal b) = Y
      · simp [hy, he]
      · simp [hy, he]
  · rw [getActiveContracts, List.mem_filter]
    simp [Bool.not_eq_true']

/-- Witness for C9 at "LC2602" against reference date 2026-03. -/
theorem contract_expiry_filter_witness :
    isContractExpired (String.mk ['L', 'C', '2', '6', '0', '2']) 2026 3 = true :=
  ((contract_expiry_filter ('2') ('6') ('0') ('2') 2026 3 (by decide) (by decide)
    (by decide) (by decide)).1).mpr (by decide)

/-- Mapping the futures of a snapshot through revision 2's converter
preserves the contract codes pointwise. -/
theorem map_contract_convert2 (cr : JsNum) (hv : Bool) (hf : List HistoryFuture)
    (fs : List FutureContract) :
    (fs.map (Rev2.convertFuture cr hv hf)).map DerivedFuture.contract =
      fs.map FutureContract.contract := by
  simp [Rev2.convertFuture, Function.comp]

/-- Mapping the futures of a snapshot through revision 1's converter
preserves the contract codes pointwise. -/
theorem map_contract_convert1 (cr : JsNum) (hf : List HistoryFuture)
    (fs : List FutureContract) :
    (fs.map (Rev1.convertFuture cr hf)).map DerivedFuture.contract =
      fs.map FutureContract.contract := by
  simp [Rev1.convertFuture, Function.comp]

/-- C8: in both engine revisions, the futures sequence of the
response has exactly the same length and the same contract order as
the input futures sequence, for every snapshot and optional history
(hence independently of the iteration order of the history futures
map): the engine never re-sorts, drops or inserts futures entries.
For revision 1 the statement is phrased through `Option.map` since a
null history produces no response at all. -/
theorem futures_order_preserved :
    ∀ (s : Snapshot) (h : Option HistorySnapshot) (today : String),
      (Rev2.buildResponse s h today).futures.map DerivedFuture.contract =
        s.futures.map FutureContract.contract ∧
      (Rev2.buildResponse s h today).futures.length = s.futures.length ∧
      (Rev1.buildResponse s h).map (fun r => r.futures.map DerivedFuture.contract) =
        (Rev1.buildResponse s h).map (fun _ => s.futures.map FutureContract.contract) ∧
      (Rev1.buildResponse s h).map (fun r => r.futures.length) =
        (Rev1.buildResponse s h).map (fun _ => s.futures.length) := by
  intro s h today
  refine ⟨?_, ?_, ?_, ?_⟩
  · show (s.futures.map (Rev2.convertFuture _ _ _)).map DerivedFuture.contract = _
    exact map_contract_convert2 _ _ _ _
  · show (s.futures.map (Rev2.convertFuture _ _ _)).length = _
    exact List.length_map _ _
  · cases h with
    | none => rfl
    | some hh => simpa [Rev1.buildResponse] using map_contract_convert1 _ _ _
  · cases h with
    | none => rfl
    | some hh => simp [Rev1.buildResponse]

/-- C1 (amended): in the staleness-aware revision, the precedence
test for the carbonate change looks only at `changeCNY` and for the
spodumene change only at `changeUSD`, each compared against
`undefined` alone.  When that field is defined (even `null` or `0`),
the output change is the scraped `changeCNY / conversionRate`
(spodumene: the scraped `changeUSD` itself) and the output
changePercent is derived from the absolute change via
`calculatePercentFromChange`; the scraped `changePercent` (and the
carbonate `changeUSD`) never participate.  The history-derived delta
is used only when that one field is `undefined`, the history is
non-null with a date different from today, and the history price is
truthy; otherwise both outputs are `null`. -/
theorem scraped_change_precedence :
    ∀ (s : Snapshot) (h : Option HistorySnapshot) (today : String),
      (s.carbonate.changeCNY ≠ JsNum.undef →
        (Rev2.buildResponse s h today).carbonate.change =
          round2 (jsDiv s.carbonate.changeCNY (calculateConversionRate s.carbonate)) ∧
        (Rev2.buildResponse s h today).carbonate.changePercent =
          round2 (calculatePercentFromChange s.carbonate.priceCNY s.carbonate.changeCNY)) ∧
      (s.carbonate.changeCNY = JsNum.undef →
        (Rev2.hasValidHistory h today && (Rev2.histCarbPrice h).truthy) = true →
        (Rev2.buildResponse s h today).carbonate.change =
          round2 (jsSub s.carbonate.price (Rev2.histCarbPrice h)) ∧
        (Rev2.buildResponse s h today).carbonate.changePercent =
          round2 (calculateChange s.carbonate.price (Rev2.histCarbPrice h))) ∧
      (s.carbonate.changeCNY = JsNum.undef →
        (Rev2.hasValidHistory h today && (Rev2.histCarbPrice h).truthy) = false →
        (Rev2.buildResponse s h today).carbonate.change = JsNum.null ∧
        (Rev2.buildResponse s h today).carbonate.changePercent = JsNum.null) ∧
      (s.spodumene.changeUSD ≠ JsNum.undef →
        (Rev2.buildResponse s h today).spodumene.change =
          nullGuardRound2 s.spodumene.changeUSD ∧
        (Rev2.buildResponse s h today).spodumene.changePercent =
          round2 (calculatePercentFromChange s.spodumene.price s.spodumene.changeUSD)) ∧
      (s.spodumene.changeUSD = JsNum.undef →
        (Rev2.hasValidHistory h today && (Rev2.histSpodPrice h).truthy) = true →
        (Rev2.buildResponse s h today).spodumene.change =
          round2 (jsSub s.spodumene.price (Rev2.histSpodPrice h)) ∧
        (Rev2.buildResponse s h today).spodumene.changePercent =
          round2 (calculateChange s.spodumene.price (Rev2.histSpodPrice h))) ∧
      (s.spodumene.changeUSD = JsNum.undef →
        (Rev2.hasValidHistory h today && (Rev2.histSpodPrice h).truthy) = false →
        (Rev2.buildResponse s h today).spodumene.change = JsNum.null ∧
        (Rev2.buildResponse s h today).spodumene.changePercent = JsNum.null) := by
  intro s h today
  refine ⟨fun hne => ⟨?_, ?_⟩, fun he hcond => ⟨?_, ?_⟩, fun he hcond => ⟨?_, ?_⟩,
    fun hne => ⟨?_, ?_⟩, fun he hcond => ⟨?_, ?_⟩, fun he hcond => ⟨?_, ?_⟩⟩
  · show nullGuardRound2 (Rev2.carbonateChangeRaw s h today) = _
    rw [Rev2.carbonateChangeRaw, if_neg hne, nullGuardRound2, if_neg (jsDiv_ne_null _ _)]
  · show nullGuardRound2 (Rev2.carbonateChangePercentRaw s h today) = _
    rw [Rev2.carbonateChangePercentRaw, if_neg hne, nullGuardRound2,
      if_neg (calculatePercentFromChange_ne_null _ _)]
  · show nullGuardRound2 (Rev2.carbonateChangeRaw s h today) = _
    rw [Rev2.carbonateChangeRaw, if_pos he, if_pos hcond, nullGuardRound2,
      if_neg (jsSub_ne_null _ _)]
  · show nullGuardRound2 (Rev2.carbonateChangePercentRaw s h today) = _
    have ht : (Rev2.histCarbPrice h).truthy = true := by
      simp only [Bool.and_eq_true] at hcond
      exact hcond.2
    rw [Rev2.carbonateChangePercentRaw, if_pos he, if_pos hcond, nullGuardRound2,
      if_neg (calculateChange_ne_null _ _ ht)]
  · show nullGuardRound2 (Rev2.carbonateChangeRaw s h today) = _
    rw [Rev2.carbonateChangeRaw, if_pos he, if_neg (by simp [hcond]), nullGuardRound2,
      if_pos rfl]
  · show nullGuardRound2 (Rev2.carbonateChangePercentRaw s h today) = _
    rw [Rev2.carbonateChangePercentRaw, if_pos he, if_neg (by simp [hcond]), nullGuardRound2,
      if_pos rfl]
  · show nullGuardRound2 (Rev2.spodumeneChangeRaw s h today) = _
    rw [Rev2.spodumeneChangeRaw, if_neg hne]
  · show nullGuardRound2 (Rev2.spodumeneChangePercentRaw s h today) = _
    rw [Rev2.spodumeneChangePercentRaw, if_neg hne, nullGuardRound2,
      if_neg (calculatePercentFromChange_ne_null _ _)]
  · show nullGuardRound2 (Rev2.spodumeneChangeRaw s h today) = _
    rw [Rev2.spodumeneChangeRaw, if_pos he, if_pos hcond, nullGuardRound2,
      if_neg (jsSub_ne_null _ _)]
  · show nullGuardRound2 (Rev2.spodumeneChangePercentRaw s h today) = _
    have ht : (Rev2.histSpodPrice h).truthy = true := by
      simp only [Bool.and_eq_true] at hcond
      exact hcond.2
    rw [Rev2.spodumeneChangePercentRaw, if_pos he, if_pos hcond, nullGuardRound2,
      if_neg (calculateChange_ne_null _ _ ht)]
  · show nullGuardRound2 (Rev2.spodumeneChangeRaw s h today) = _
    rw [Rev2.spodumeneChangeRaw, if_pos he, if_neg (by simp [hcond]), nullGuardRound2,
      if_pos rfl]
  · show nullGuardRound2 (Rev2.spodumeneChangePercentRaw s h today) = _
    rw [Rev2.spodumeneChangePercentRaw, if_pos he, if_neg (by simp [hcond]), nullGuardRound2,
      if_pos rfl]

/-- A snapshot whose carbonate carries scraped `changeUSD` and
`changePercent` values but no `changeCNY`. -/
def precSnap : Snapshot :=
  { carbonate :=
      { price := JsNum.num 23000, priceCNY := JsNum.num 161000,
        changeCNY := JsNum.undef, changeUSD := JsNum.num 862,
        changePercent := JsNum.num (379/100) }
    spodumene :=
      { price := JsNum.num 2130, priceCNY := JsNum.undef,
        changeCNY := JsNum.undef, changeUSD := JsNum.undef,
        changePercent := JsNum.undef }
    futures := [] }

/-- A prior-day history with valid carbonate and spodumene prices. -/
def precHist : HistorySnapshot :=
  { date := "2026-01-21", carbonate := JsNum.num 22707,
    spodumene := JsNum.num 2035, futures := [] }

/-- Counterexample to C1 as stated: `precSnap.carbonate` carries
non-null, non-undefined scraped `changeUSD` (862) and `changePercent`
(3.79) fields, yet the staleness-aware `buildResponse` outputs the
history-derived delta `23000 - 22707 = 293` and the history-derived
percent `1.29`, not the scraped values: the precedence test examines
only `changeCNY`, which is absent here. -/
theorem scraped_change_precedence_cex :
    precSnap.carbonate.changeUSD = JsNum.num 862 ∧
    precSnap.carbonate.changePercent = JsNum.num (379/100) ∧
    (Rev2.buildResponse precSnap (some precHist) exToday).carbonate.change =
      JsNum.num 293 ∧
    (Rev2.buildResponse precSnap (some precHist) exToday).carbonate.changePercent =
      JsNum.num (129/100) ∧
    (293 : ℚ) ≠ 862 ∧ (129 : ℚ) / 100 ≠ 379 / 100 := by
  refine ⟨rfl, rfl, ?_, ?_, by norm_num, by norm_num⟩
  · simp [Rev2.buildResponse, Rev2.carbonateChangeRaw, Rev2.hasValidHistory,
      Rev2.histCarbPrice, precSnap, precHist, exToday, nullGuardRound2, round2, jsSub,
      jsMul, jsDiv, jsMathRound, JsNum.toNumber, JsNum.truthy, calculateConversionRate]
    norm_num
  · simp [Rev2.buildResponse, Rev2.carbonateChangePercentRaw, Rev2.hasValidHistory,
      Rev2.histCarbPrice, precSnap, precHist, exToday, nullGuardRound2, round2, jsSub,
      jsMul, jsDiv, jsMathRound, JsNum.toNumber, JsNum.truthy, calculateConversionRate,
      calculateChange]
    norm_num [Int.floor_eq_iff]

/-- Witness for the amended C1: the history branch fires on
`precSnap` (whose `changeCNY` is undefined) with a valid prior-day
history. -/
theorem scraped_change_precedence_witness :
    (Rev2.buildResponse precSnap (some precHist) exToday).carbonate.change =
      round2 (jsSub precSnap.carbonate.price (Rev2.histCarbPrice (some precHist))) :=
  ((scraped_change_precedence precSnap (some precHist) exToday).2.1 rfl
    (by simp [Rev2.hasValidHistory, Rev2.histCarbPrice, precHist, exToday,
      JsNum.truthy])).1

/-- C2 (amended): in the staleness-aware revision, for every snapshot
without scraped change fields (`carbonate.changeCNY` and
`spodumene.changeUSD` undefined) and every non-null history whose
date equals today's date, the history is treated as stale: the
carbonate and spodumene change and changePercent and every future's
change all resolve to `null`, regardless of the price values present
in the history. -/
theorem same_day_history_stale :
    ∀ (s : Snapshot) (h : HistorySnapshot) (today : String),
      h.date = today →
      s.carbonate.changeCNY = JsNum.undef →
      s.spodumene.changeUSD = JsNum.undef →
      (Rev2.buildResponse s (some h) today).carbonate.change = JsNum.null ∧
      (Rev2.buildResponse s (some h) today).carbonate.changePercent = JsNum.null ∧
      (Rev2.buildResponse s (some h) today).spodumene.change = JsNum.null ∧
      (Rev2.buildResponse s (some h) today).spodumene.changePercent = JsNum.null ∧
      ∀ df ∈ (Rev2.buildResponse s (some h) today).futures, df.change = JsNum.null := by
  intro s h today hd hc hs
  have hv : Rev2.hasValidHistory (some h) today = false := by
    simp [Rev2.hasValidHistory, hd]
  refine ⟨?_, ?_, ?_, ?_, ?_⟩
  · show nullGuardRound2 (Rev2.carbonateChangeRaw s (some h) today) = _
    rw [Rev2.carbonateChangeRaw, if_pos hc, if_neg (by simp [hv]), nullGuardRound2,
      if_pos rfl]
  · show nullGuardRound2 (Rev2.carbonateChangePercentRaw s (some h) today) = _
    rw [Rev2.carbonateChangePercentRaw, if_pos hc, if_neg (by simp [hv]), nullGuardRound2,
      if_pos rfl]
  · show nullGuardRound2 (Rev2.spodumeneChangeRaw s (some h) today) = _
    rw [Rev2.spodumeneChangeRaw, if_pos hs, if_neg (by simp [hv]), nullGuardRound2,
      if_pos rfl]
  · show nullGuardRound2 (Rev2.spodumeneChangePercentRaw s (some h) today) = _
    rw [Rev2.spodumeneChangePercentRaw, if_pos hs, if_neg (by simp [hv]), nullGuardRound2,
      if_pos rfl]
  · intro df hdf
    simp only [Rev2.buildResponse, List.mem_map] at hdf
    obtain ⟨f, hf, rfl⟩ := hdf
    simp [Rev2.convertFuture, Rev2.futureChangeRaw, hv, nullGuardRound2]

/-- A snapshot with no scraped change fields at all. -/
def staleSnap : Snapshot :=
  { carbonate :=
      { price := JsNum.num 24000, priceCNY := JsNum.num 168000,
        changeCNY := JsNum.undef, changeUSD := JsNum.undef,
        changePercent := JsNum.undef }
    spodumene :=
      { price := JsNum.num 2100, priceCNY := JsNum.undef,
        changeCNY := JsNum.undef, changeUSD := JsNum.undef,
        changePercent := JsNum.undef }
    futures := [] }

/-- A history snapshot dated the same day as `exToday`, with valid
prices. -/
def staleHist : HistorySnapshot :=
  { date := "2026-01-22", carbonate := JsNum.num 23000,
    spodumene := JsNum.num 2100, futures := [] }

/-- Counterexample to C2 as stated: revision 1's `buildResponse` has
no staleness check — given a history dated today (`staleHist.date`
equals the current date) with a valid carbonate price, it still
computes the history-derived change `24000 - 23000 = 1000` instead of
`null`. -/
theorem same_day_history_stale_cex :
    staleHist.date = exToday ∧
    (Rev1.buildResponse staleSnap (some staleHist)).map (fun r => r.carbonate.change) =
      some (JsNum.num 1000) ∧
    JsNum.num (1000 : ℚ) ≠ JsNum.null := by
  refine ⟨rfl, ?_, by simp⟩
  simp [Rev1.buildResponse, staleSnap, staleHist, JsNum.truthy, round2, jsSub, jsMul,
    jsDiv, jsMathRound, JsNum.toNumber]
  norm_num

/-- Witness for the amended C2 at `staleSnap` and the same-day
history `staleHist`. -/
theorem same_day_history_stale_witness :
    (Rev2.buildResponse staleSnap (some staleHist) exToday).carbonate.change =
      JsNum.null ∧
    (Rev2.buildResponse staleSnap (some staleHist) exToday).spodumene.change =
      JsNum.null := by
  have h := same_day_history_stale staleSnap staleHist exToday rfl rfl rfl
  exact ⟨h.1, h.2.2.1⟩

/-- A derived value that is a finite number or an explicit `null`
(never `undefined`, never `NaN`). -/
def JsNum.numOrNull (v : JsNum) : Prop :=
  v = JsNum.null ∨ ∃ q : ℚ, v = JsNum.num q

/-- The guarded rounding preserves number-or-null values. -/
theorem nullGuardRound2_numOrNull (v : JsNum) (hv : v.numOrNull) :
    (nullGuardRound2 v).numOrNull := by
  rcases hv with hv | ⟨q, hv⟩
  · rw [hv, nullGuardRound2, if_pos rfl]
    exact Or.inl rfl
  · rw [hv, nullGuardRound2, if_neg (by simp), round2_num]
    exact Or.inr ⟨_, rfl⟩

/-- Subtracting a truthy value from a number gives a number. -/
theorem jsSub_num_of_truthy (x : ℚ) (b : JsNum) (hb : b.truthy = true) :
    ∃ q : ℚ, jsSub (JsNum.num x) b = JsNum.num q := by
  obtain ⟨y, rfl, -⟩ := (truthy_iff b).mp hb
  exact ⟨x - y, rfl⟩

/-- Dividing a defined non-NaN value by a nonzero number gives a
number. -/
theorem jsDiv_num_denom (a : JsNum) (r : ℚ) (hr : r ≠ 0)
    (ha : a ≠ JsNum.nan) (ha2 : a ≠ JsNum.undef) :
    ∃ q : ℚ, jsDiv a (JsNum.num r) = JsNum.num q := by
  cases a with
  | undef => exact absurd rfl ha2
  | null => exact ⟨0 / r, by simp [jsDiv, JsNum.toNumber, hr]⟩
  | nan => exact absurd rfl ha
  | num c => exact ⟨c / r, by simp [jsDiv, JsNum.toNumber, hr]⟩

/-- `calculateChange` of a number against a truthy baseline gives a
number. -/
theorem calculateChange_num (c : ℚ) (p : JsNum) (hp : p.truthy = true) :
    ∃ q : ℚ, calculateChange (JsNum.num c) p = JsNum.num q := by
  obtain ⟨y, rfl, hy⟩ := (truthy_iff p).mp hp
  refine ⟨(c - y) / y * 100, ?_⟩
  simp [calculateChange, JsNum.truthy, hy, jsMul, jsDiv, jsSub, JsNum.toNumber]

/-- `calculatePercentFromChange` on a falsy absolute change is 0
regardless of the current price. -/
theorem calculatePercentFromChange_falsy (x c : JsNum) (hc : ¬ c.truthy = true) :
    calculatePercentFromChange x c = JsNum.num 0 := by
  rw [calculatePercentFromChange, if_neg hc]

/-- `calculatePercentFromChange` with a numeric current price always
gives a number. -/
theorem calculatePercentFromChange_num (p : ℚ) (c : JsNum) :
    ∃ q : ℚ, calculatePercentFromChange (JsNum.num p) c = JsNum.num q := by
  by_cases ht : c.truthy = true
  · obtain ⟨y, rfl, hy⟩ := (truthy_iff c).mp ht
    rw [calculatePercentFromChange, if_pos ht]
    by_cases hz : jsSub (JsNum.num p) (JsNum.num y) = JsNum.num 0
    · rw [if_pos hz]
      exact ⟨0, rfl⟩
    · rw [if_neg hz]
      have hpy : p - y ≠ 0 := by
        intro hcon
        exact hz (by simp [jsSub, JsNum.toNumber, hcon])
      exact ⟨y / (p - y) * 100, by simp [jsMul, jsDiv, jsSub, JsNum.toNumber, hpy]⟩
  · exact ⟨0, calculatePercentFromChange_falsy _ _ ht⟩

/-- C3 (amended): the staleness-aware `buildResponse` is a total
function — in particular it accepts a null history, missing history
sub-records and missing scraped change fields — and every derived
field (carbonate/spodumene change and changePercent, every future's
change and price) is a finite number or an explicit `null`, never
`undefined` and never `NaN`, provided the snapshot's numeric inputs
are sound where the engine reads them: the instrument prices are
numbers, the scraped change fields are not `NaN`, and the carbonate
`priceCNY` is a number whenever a truthy `changeCNY` is scraped.
(Revision 1's `buildResponse` instead throws a `TypeError` on a null
history, modelled by its `Option` result.) -/
theorem total_on_missing_data :
    ∀ (s : Snapshot) (h : Option HistorySnapshot) (today : String) (pc ps : ℚ),
      s.carbonate.price = JsNum.num pc →
      s.spodumene.price = JsNum.num ps →
      s.carbonate.changeCNY ≠ JsNum.nan →
      s.spodumene.changeUSD ≠ JsNum.nan →
      (s.carbonate.changeCNY.truthy = true →
        ∃ qc : ℚ, s.carbonate.priceCNY = JsNum.num qc) →
      (Rev2.buildResponse s h today).carbonate.change.numOrNull ∧
      (Rev2.buildResponse s h today).carbonate.changePercent.numOrNull ∧
      (Rev2.buildResponse s h today).spodumene.change.numOrNull ∧
      (Rev2.buildResponse s h today).spodumene.changePercent.numOrNull ∧
      ∀ df ∈ (Rev2.buildResponse s h today).futures,
        df.change.numOrNull ∧ ∃ q : ℚ, df.price = JsNum.num q := by
  intro s h today pc ps hpc hps hccnan husnan hpcny
  obtain ⟨r, hr, hrne⟩ := calculateConversionRate_num s.carbonate
  refine ⟨?_, ?_, ?_, ?_, ?_⟩
  · show (nullGuardRound2 (Rev2.carbonateChangeRaw s h today)).numOrNull
    apply nullGuardRound2_numOrNull
    rw [Rev2.carbonateChangeRaw]
    split
    · split
      · rename_i hcond
        simp only [Bool.and_eq_true] at hcond
        rw [hpc]
        exact Or.inr (jsSub_num_of_truthy _ _ hcond.2)
      · exact Or.inl rfl
    · rename_i hund
      rw [hr]
      exact Or.inr (jsDiv_num_denom _ _ hrne hccnan hund)
  · show (nullGuardRound2 (Rev2.carbonateChangePercentRaw s h today)).numOrNull
    apply nullGuardRound2_numOrNull
    rw [Rev2.carbonateChangePercentRaw]
    split
    · split
      · rename_i hcond
        simp only [Bool.and_eq_true] at hcond
        rw [hpc]
        exact Or.inr (calculateChange_num _ _ hcond.2)
      · exact Or.inl rfl
    · by_cases ht : s.carbonate.changeCNY.truthy = true
      · obtain ⟨qc, hqc⟩ := hpcny ht
        rw [hqc]
        exact Or.inr (calculatePercentFromChange_num _ _)
      · exact Or.inr ⟨0, calculatePercentFromChange_falsy _ _ ht⟩
  · show (nullGuardRound2 (Rev2.spodumeneChangeRaw s h today)).numOrNull
    apply nullGuardRound2_numOrNull
    rw [Rev2.spodumeneChangeRaw]
    split
    · split
      · rename_i hcond
        simp only [Bool.and_eq_true] at hcond
        rw [hps]
        exact Or.inr (jsSub_num_of_truthy _ _ hcond.2)
      · exact Or.inl rfl
    · cases hu : s.spodumene.changeUSD with
      | undef => rename_i hund; exact absurd hu hund
      | null => exact Or.inl rfl
      | nan => exact absurd hu husnan
      | num q => exact Or.inr ⟨q, rfl⟩
  · show (nullGuardRound2 (Rev2.spodumeneChangePercentRaw s h today)).numOrNull
    apply nullGuardRound2_numOrNull
    rw [Rev2.spodumeneChangePercentRaw]
    split
    · split
      · rename_i hcond
        simp only [Bool.and_eq_true] at hcond
        rw [hps]
        exact Or.inr (calculateChange_num _ _ hcond.2)
      · exact Or.inl rfl
    · rw [hps]
      exact Or.inr (calculatePercentFromChange_num _ _)
  · intro df hdf
    simp only [Rev2.buildResponse, List.mem_map] at hdf
    obtain ⟨f, hf, rfl⟩ := hdf
    constructor
    · show (nullGuardRound2 (Rev2.futureChangeRaw _ _ f)).numOrNull
      apply nullGuardRound2_numOrNull
      rw [Rev2.futureChangeRaw]
      split
      · rename_i hcond
        simp only [Bool.and_eq_true] at hcond
        exact Or.inr (calculateChange_num _ _ hcond.2)
      · exact Or.inl rfl
    · show ∃ q : ℚ, jsMathRound (jsDiv (JsNum.num f.priceCNY) _) = JsNum.num q
      rw [hr]
      simp [jsMathRound, jsDiv, JsNum.toNumber, hrne]

/-- Counterexample to C3 as stated: revision 1's `buildResponse`
evaluates `history.carbonate?.price` without a null guard on
`history` itself (api/prices.js line 86), so with a null history it
throws a `TypeError` instead of degrading to `null` — modelled here
by the `none` result. -/
theorem total_on_missing_cex : Rev1.buildResponse staleSnap none = none := rfl

/-- Witness for the amended C3 at `staleSnap` with a null history. -/
theorem total_on_missing_witness :
    (Rev2.buildResponse staleSnap none exToday).carbonate.change.numOrNull ∧
    (Rev2.buildResponse staleSnap none exToday).spodumene.changePercent.numOrNull := by
  have h := total_on_missing_data staleSnap none exToday 24000 2100 rfl rfl
    (by decide) (by decide) (fun _ => ⟨168000, rfl⟩)
  exact ⟨h.1, h.2.2.2.1⟩

/-- C4 (amended): in the staleness-aware revision, the derived
futures are the input futures mapped elementwise through
`convertFuture`; each derived price is
`round(priceCNY / conversionRate)` with half-up integer rounding;
the change equals `round(computePercentChange(priceCNY,
historyPriceCNY), 2)` computed on the CNY values whenever the
contract is found in the history map with a nonzero price and the
history is valid (non-null, not same-day), and is `null` otherwise;
and each contract's derived record depends on the history only
through its own lookup, so a contract missing from the history
cannot affect the others. -/
theorem futures_cny_conversion :
    ∀ (s : Snapshot) (h : Option HistorySnapshot) (today : String),
      (Rev2.buildResponse s h today).futures =
        s.futures.map (Rev2.convertFuture (calculateConversionRate s.carbonate)
          (Rev2.hasValidHistory h today) (historyFuturesList h)) ∧
      ∀ (f : FutureContract),
        (∃ r : ℚ, calculateConversionRate s.carbonate = JsNum.num r ∧ r ≠ 0 ∧
          (Rev2.convertFuture (calculateConversionRate s.carbonate)
              (Rev2.hasValidHistory h today) (historyFuturesList h) f).price =
            JsNum.num ((⌊f.priceCNY / r + 1/2⌋ : ℤ) : ℚ)) ∧
        (∀ q : ℚ, Rev2.hasValidHistory h today = true →
          histFuturesGet (historyFuturesList h) f.contract = JsNum.num q → q ≠ 0 →
          (Rev2.convertFuture (calculateConversionRate s.carbonate)
              (Rev2.hasValidHistory h today) (historyFuturesList h) f).change =
            JsNum.num (((⌊(f.priceCNY - q) / q * 100 * 100 + 1/2⌋ : ℤ) : ℚ) / 100)) ∧
        ((Rev2.hasValidHistory h today = false ∨
            (histFuturesGet (historyFuturesList h) f.contract).truthy = false) →
          (Rev2.convertFuture (calculateConversionRate s.carbonate)
              (Rev2.hasValidHistory h today) (historyFuturesList h) f).change =
            JsNum.null) ∧
        ∀ (h2 : Option HistorySnapshot),
          Rev2.hasValidHistory h today = Rev2.hasValidHistory h2 today →
          histFuturesGet (historyFuturesList h) f.contract =
            histFuturesGet (historyFuturesList h2) f.contract →
          Rev2.convertFuture (calculateConversionRate s.carbonate)
            (Rev2.hasValidHistory h today) (historyFuturesList h) f =
            Rev2.convertFuture (calculateConversionRate s.carbonate)
              (Rev2.hasValidHistory h2 today) (historyFuturesList h2) f := by
  intro s h today
  obtain ⟨r, hr, hrne⟩ := calculateConversionRate_num s.carbonate
  refine ⟨rfl, fun f => ⟨⟨r, hr, hrne, ?_⟩, fun q hv hq hqne => ?_, fun hdis => ?_,
    fun h2 he1 he2 => ?_⟩⟩
  · show jsMathRound (jsDiv (JsNum.num f.priceCNY) (calculateConversionRate s.carbonate)) = _
    rw [hr]
    simp [jsMathRound, jsDiv, JsNum.toNumber, hrne]
  · show nullGuardRound2 (Rev2.futureChangeRaw _ _ f) = _
    have hcond : (Rev2.hasValidHistory h today &&
        (histFuturesGet (historyFuturesList h) f.contract).truthy) = true := by
      rw [hv, hq]
      simp [JsNum.truthy, hqne]
    rw [Rev2.futureChangeRaw, if_pos hcond, hq, calculateChange,
      if_pos (by simp [JsNum.truthy, hqne])]
    simp [jsMul, jsDiv, jsSub, JsNum.toNumber, hqne, nullGuardRound2, round2_num]
  · show nullGuardRound2 (Rev2.futureChangeRaw _ _ f) = _
    have hcond : (Rev2.hasValidHistory h today &&
        (histFuturesGet (historyFuturesList h) f.contract).truthy) = false := by
      rcases hdis with hd | hd <;> simp [hd]
    rw [Rev2.futureChangeRaw, if_neg (by simp [hcond]), nullGuardRound2, if_pos rfl]
  · simp only [Rev2.convertFuture, Rev2.futureChangeRaw, he1, he2]

/-- A snapshot with a single future, for the futures-change
examples. -/
def futSnap : Snapshot :=
  { carbonate :=
      { price := JsNum.num 23000, priceCNY := JsNum.num 161000,
        changeCNY := JsNum.undef, changeUSD := JsNum.undef,
        changePercent := JsNum.undef }
    spodumene :=
      { price := JsNum.num 2100, priceCNY := JsNum.undef,
        changeCNY := JsNum.undef, changeUSD := JsNum.undef,
        changePercent := JsNum.undef }
    futures := [{ contract := "LC2602", month := "Feb-26", priceCNY := 165000 }] }

/-- A history dated the same day as `exToday` holding the single
contract at a nonzero CNY price. -/
def futHistToday : HistorySnapshot :=
  { date := "2026-01-22", carbonate := JsNum.num 23000,
    spodumene := JsNum.num 2100,
    futures := [{ contract := "LC2602", priceCNY := 160000 }] }

/-- The same history dated the prior day. -/
def futHistPrior : HistorySnapshot :=
  { date := "2026-01-21", carbonate := JsNum.num 23000,
    spodumene := JsNum.num 2100,
    futures := [{ contract := "LC2602", priceCNY := 160000 }] }

/-- Counterexample to C4 as stated: revision 1's futures conversion
has no same-day staleness condition — with a history dated today
(`futHistToday.date` equals the current date), the contract's change
is still computed from the history (`(165000-160000)/160000*100`
rounded to `3.13`) instead of resolving to `null`. -/
theorem futures_cny_conversion_cex :
    futHistToday.date = exToday ∧
    (Rev1.buildResponse futSnap (some futHistToday)).map
        (fun r => r.futures.map DerivedFuture.change) =
      some [JsNum.num (313/100)] ∧
    JsNum.num ((313 : ℚ) / 100) ≠ JsNum.null := by
  refine ⟨rfl, ?_, by simp⟩
  simp [Rev1.buildResponse, Rev1.convertFuture, futSnap, futHistToday, histFuturesGet,
    nullGuardRound2, round2, calculateChange, JsNum.truthy, jsSub, jsMul, jsDiv,
    jsMathRound, JsNum.toNumber]
  norm_num [Int.floor_eq_iff]

/-- Witness for the amended C4: the found-and-valid branch at the
single-contract snapshot with a prior-day history. -/
theorem futures_cny_conversion_witness :
    (Rev2.convertFuture (calculateConversionRate futSnap.carbonate)
        (Rev2.hasValidHistory (some futHistPrior) exToday)
        (historyFuturesList (some futHistPrior))
        { contract := "LC2602", month := "Feb-26", priceCNY := 165000 }).change =
      JsNum.num (((⌊((165000 : ℚ) - 160000) / 160000 * 100 * 100 + 1/2⌋ : ℤ) : ℚ) / 100) :=
  ((futures_cny_conversion futSnap (some futHistPrior) exToday).2
    { contract := "LC2602", month := "Feb-26", priceCNY := 165000 }).2.1 160000
    (by simp [Rev2.hasValidHistory, futHistPrior, exToday])
    (by simp [histFuturesGet, historyFuturesList, futHistPrior])
    (by norm_num)

/-- A snapshot whose scraped carbonate change makes the pre-rounding
change exactly +0.005 (conversion rate falls back to 6.98). -/
def roundSnapPos : Snapshot :=
  { carbonate :=
      { price := JsNum.undef, priceCNY := JsNum.undef,
        changeCNY := JsNum.num (349/10000), changeUSD := JsNum.undef,
        changePercent := JsNum.undef }
    spodumene :=
      { price := JsNum.undef, priceCNY := JsNum.undef,
        changeCNY := JsNum.undef, changeUSD := JsNum.undef,
        changePercent := JsNum.undef }
    futures := [] }

/-- The mirrored snapshot whose pre-rounding change is exactly
-0.005. -/
def roundSnapNeg : Snapshot :=
  { carbonate :=
      { price := JsNum.undef, priceCNY := JsNum.undef,
        changeCNY := JsNum.num (-(349/10000)), changeUSD := JsNum.undef,
        changePercent := JsNum.undef }
    spodumene :=
      { price := JsNum.undef, priceCNY := JsNum.undef,
        changeCNY := JsNum.undef, changeUSD := JsNum.undef,
        changePercent := JsNum.undef }
    futures := [] }

/-- Counterexample to C6 as stated: the engine's rounding is JS
`Math.round(x*100)/100`, which sends halves toward positive
infinity.  On a raw change of +0.005 it emits 0.01 while
round-half-to-even emits 0; on a raw change of -0.005 it emits 0
while round-half-away-from-zero emits -0.01.  Hence the emitted
values agree with neither of the two rules the claim allows,
uniformly applied. -/
theorem rounding_rule_cex :
    Rev2.carbonateChangeRaw roundSnapPos none exToday = JsNum.num (1/200) ∧
    (Rev2.buildResponse roundSnapPos none exToday).carbonate.change =
      JsNum.num (1/100) ∧
    roundHalfEvenTwo (1/200) = 0 ∧ (1 : ℚ) / 100 ≠ 0 ∧
    Rev2.carbonateChangeRaw roundSnapNeg none exToday = JsNum.num (-(1/200)) ∧
    (Rev2.buildResponse roundSnapNeg none exToday).carbonate.change = JsNum.num 0 ∧
    roundHalfAwayTwo (-(1/200)) = -(1/100) ∧ (0 : ℚ) ≠ -(1/100) := by
  have hrawP : Rev2.carbonateChangeRaw roundSnapPos none exToday = JsNum.num (1/200) := by
    simp [Rev2.carbonateChangeRaw, roundSnapPos, calculateConversionRate, JsNum.truthy,
      jsDiv, JsNum.toNumber]
    norm_num
  have hrawN : Rev2.carbonateChangeRaw roundSnapNeg none exToday =
      JsNum.num (-(1/200)) := by
    simp [Rev2.carbonateChangeRaw, roundSnapNeg, calculateConversionRate, JsNum.truthy,
      jsDiv, JsNum.toNumber]
    norm_num
  refine ⟨hrawP, ?_, ?_, by norm_num, hrawN, ?_, ?_, by norm_num⟩
  · show nullGuardRound2 (Rev2.carbonateChangeRaw roundSnapPos none exToday) = _
    rw [hrawP, nullGuardRound2, if_neg (by simp), round2_num]
    norm_num
  · rw [roundHalfEvenTwo]
    norm_num
  · show nullGuardRound2 (Rev2.carbonateChangeRaw roundSnapNeg none exToday) = _
    rw [hrawN, nullGuardRound2, if_neg (by simp), round2_num]
    norm_num
  · rw [roundHalfAwayTwo, if_neg (by norm_num)]
    norm_num

/-- C6 (amended): every final change and changePercent value emitted
by the staleness-aware engine is produced by the one uniform
operator `Math.round(v*100)/100`, i.e. two-decimal rounding with
halves toward positive infinity (`⌊100·v + 1/2⌋ / 100`), applied
identically — under the same null guard — to the carbonate change,
the carbonate changePercent, the spodumene change, the spodumene
changePercent and every future's change. -/
theorem rounding_rule_uniform :
    (∀ q : ℚ, round2 (JsNum.num q) = JsNum.num (((⌊q * 100 + 1/2⌋ : ℤ) : ℚ) / 100)) ∧
    ∀ (s : Snapshot) (h : Option HistorySnapshot) (today : String),
      (Rev2.buildResponse s h today).carbonate.change =
        nullGuardRound2 (Rev2.carbonateChangeRaw s h today) ∧
      (Rev2.buildResponse s h today).carbonate.changePercent =
        nullGuardRound2 (Rev2.carbonateChangePercentRaw s h today) ∧
      (Rev2.buildResponse s h today).spodumene.change =
        nullGuardRound2 (Rev2.spodumeneChangeRaw s h today) ∧
      (Rev2.buildResponse s h today).spodumene.changePercent =
        nullGuardRound2 (Rev2.spodumeneChangePercentRaw s h today) ∧
      (Rev2.buildResponse s h today).futures.map DerivedFuture.change =
        s.futures.map (fun f => nullGuardRound2
          (Rev2.futureChangeRaw (Rev2.hasValidHistory h today)
            (historyFuturesList h) f)) := by
  refine ⟨round2_num, fun s h today => ⟨rfl, rfl, rfl, rfl, ?_⟩⟩
  show (s.futures.map (Rev2.convertFuture _ _ _)).map DerivedFuture.change = _
  rw [List.map_map]
  rfl
